import Mathlib

/-
Verification development for the tic telemetry aggregation library.
The Rust sources under src/ are shallowly embedded: hash maps become
association lists, u64 becomes Nat, f64 becomes the rationals, channel
and pool interactions become explicit outcome arguments, and panics
become the none case of an Option result.
-/

namespace Tic

/-- lookup in an association list, modelling FnvHashMap::get -/
def alookup {K V : Type} [DecidableEq K] : List (K × V) → K → Option V
  | [], _ => none
  | (k, v) :: rest, key => if k = key then some v else alookup rest key

/-- insert into an association list, modelling FnvHashMap::insert,
which overwrites the value stored under an existing key -/
def ainsert {K V : Type} [DecidableEq K] : List (K × V) → K → V → List (K × V)
  | [], key, v => [(key, v)]
  | (k, w) :: rest, key, v =>
      if k = key then (key, v) :: rest else (k, w) :: ainsert rest key v

/-- remove from an association list, modelling FnvHashMap::remove -/
def aremove {K V : Type} [DecidableEq K] : List (K × V) → K → List (K × V)
  | [], _ => []
  | (k, w) :: rest, key =>
      if k = key then rest else (k, w) :: aremove rest key

/-- update the value stored under a key when present, a no-op when the
key is absent; this models the get_mut pattern used throughout the
per-label maps of the aggregator -/
def aadjust {K V : Type} [DecidableEq K] : List (K × V) → K → (V → V) → List (K × V)
  | [], _, _ => []
  | (k, w) :: rest, key, f =>
      if k = key then (k, f w) :: rest else (k, w) :: aadjust rest key f

/-- apply a function to every stored value, modelling iteration with
values_mut over the whole map -/
def amap {K V : Type} (f : V → V) (l : List (K × V)) : List (K × V) :=
  l.map (fun p => (p.1, f p.2))

/-- Duration of 1 second in nanoseconds, from common.rs -/
def SECOND : Nat := 1000000000

/-- a Sample, from data/sample.rs: a start and stop time for an event -/
structure Sample (T : Type) where
  start : Nat
  stop : Nat
  count : Nat
  channel : T
deriving DecidableEq

/-- Sample::metric returns a clone of the channel -/
def Sample.metric {T : Type} (s : Sample T) : T := s.channel

/-- Modelled from the spec: Sample::value is called by the Receiver for
gauges but is absent from the provided sources; per the spec, gauges
piggy-back on the count field of the Sample -/
def Sample.value {T : Type} (s : Sample T) : Nat := s.count

/-- an io::Error, modelled by its kind and message -/
structure IoError where
  kind : String
  msg : String
deriving DecidableEq

/-- outcome of a non-blocking try_send on a mio_extras channel, from the
point of view of the caller; the environment chooses the case -/
inductive TrySendOutcome where
  | accepted
  | full
  | disconnected
  | ioErr (e : IoError)
deriving DecidableEq

/-- a Sender, from sender.rs: the producer-side batcher; the buffer is
an Option because the Rust code takes it out and unwraps -/
structure Sender (T : Type) where
  batch_size : Nat
  buffer : Option (List (Sample T))
deriving DecidableEq

/-- Sender::send, from sender.rs: push the sample into the local
buffer; once the buffer holds at least batch_size samples, attempt a
non-blocking enqueue of the whole buffer onto the data channel. The
enqueue outcome and the buffer available from the recycling pool are
explicit arguments. The result is none when the code would panic
(buffer already taken), otherwise the updated sender, the returned
io::Result, and the batch enqueued on the data channel if any. -/
def Sender.send {T : Type} (s : Sender T) (sample : Sample T)
    (enq : TrySendOutcome) (pool : Option (List (Sample T))) :
    Option (Sender T × Except IoError Unit × Option (List (Sample T))) :=
  match s.buffer with
  | none => none
  | some buffer0 =>
    let buffer := buffer0 ++ [sample]
    if buffer.length ≥ s.batch_size then
      match enq with
      | TrySendOutcome.accepted =>
          let fresh := match pool with
            | some b => b
            | none => []
          some ({ s with buffer := some fresh }, Except.ok (), some buffer)
      | TrySendOutcome.full =>
          some ({ s with buffer := some buffer }, Except.ok (), none)
      | TrySendOutcome.disconnected =>
          some ({ s with buffer := some buffer }, Except.ok (), none)
      | TrySendOutcome.ioErr e =>
          some ({ s with buffer := none }, Except.error e, none)
    else
      some ({ s with buffer := some buffer }, Except.ok (), none)

/-- Counters, from data/counters.rs: a map of u64 counters keyed by
metric -/
structure Counters (T : Type) where
  data : List (T × Nat)
deriving DecidableEq

/-- Counters::init inserts a zero under the key (overwriting any value
already stored there) -/
def Counters.init {T : Type} [DecidableEq T] (c : Counters T) (key : T) : Counters T :=
  { c with data := ainsert c.data key 0 }

/-- Counters::remove -/
def Counters.remove {T : Type} [DecidableEq T] (c : Counters T) (key : T) : Counters T :=
  { c with data := aremove c.data key }

/-- Counters::increment_by adds to the stored count when the key is
registered and is a no-op otherwise -/
def Counters.increment_by {T : Type} [DecidableEq T] (c : Counters T) (key : T) (count : Nat) :
    Counters T :=
  { c with data := aadjust c.data key (fun v => v + count) }

/-- Counters::count returns the stored count, defaulting to zero -/
def Counters.count {T : Type} [DecidableEq T] (c : Counters T) (key : T) : Nat :=
  (alookup c.data key).getD 0

/-- Gauges, from data/gauges.rs: a map of u64 gauges keyed by metric -/
structure Gauges (T : Type) where
  data : List (T × Nat)
deriving DecidableEq

/-- Gauges::init inserts a zero under the key -/
def Gauges.init {T : Type} [DecidableEq T] (g : Gauges T) (key : T) : Gauges T :=
  { g with data := ainsert g.data key 0 }

/-- Gauges::remove -/
def Gauges.remove {T : Type} [DecidableEq T] (g : Gauges T) (key : T) : Gauges T :=
  { g with data := aremove g.data key }

/-- Gauges::set overwrites the stored value when the key is registered
and is a no-op otherwise -/
def Gauges.set {T : Type} [DecidableEq T] (g : Gauges T) (key : T) (value : Nat) : Gauges T :=
  { g with data := aadjust g.data key (fun _ => value) }

/-- Gauges::value returns the stored value, defaulting to zero -/
def Gauges.value {T : Type} [DecidableEq T] (g : Gauges T) (key : T) : Nat :=
  (alookup g.data key).getD 0

/-- one histogram of the external histogram collaborator, modelled as
the multiset of (value, count) increments it received; the collaborator
itself is out of scope, only its increment, clear and percentile
interface is used by the core -/
structure Histogram where
  entries : List (Nat × Nat)
deriving DecidableEq

/-- Histogram::increment_by records count occurrences of value -/
def Histogram.increment_by (h : Histogram) (value count : Nat) : Histogram :=
  ⟨h.entries ++ [(value, count)]⟩

/-- Histogram::clear discards all recorded data -/
def Histogram.clear (_h : Histogram) : Histogram := ⟨[]⟩

/-- total number of recorded events in a histogram -/
def Histogram.total (h : Histogram) : Nat :=
  (h.entries.map Prod.snd).sum

/-- insertion into a list of entries sorted by value -/
def insertSorted (x : Nat × Nat) : List (Nat × Nat) → List (Nat × Nat)
  | [] => [x]
  | y :: ys => if x.1 ≤ y.1 then x :: y :: ys else y :: insertSorted x ys

/-- sort histogram entries by value -/
def sortEntries (l : List (Nat × Nat)) : List (Nat × Nat) :=
  l.foldr insertSorted []

/-- walk the sorted entries until the cumulative count reaches the
target rank -/
def pickRank : List (Nat × Nat) → Nat → Nat
  | [], _ => 0
  | (v, c) :: rest, target => if target ≤ c then v else pickRank rest (target - c)

/-- Histogram::percentile of the external collaborator: an error when no
data was recorded, otherwise the smallest recorded value whose
cumulative count reaches the requested fraction of the total -/
def Histogram.percentile (h : Histogram) (p : ℚ) : Except String Nat :=
  if h.total = 0 then Except.error "no data"
  else
    let target := max 1 (p / 100 * (h.total : ℚ)).ceil.toNat
    Except.ok (pickRank (sortEntries h.entries) target)

/-- Histograms, from data/histograms.rs: a map of histograms keyed by
metric -/
structure Histograms (T : Type) where
  data : List (T × Histogram)
deriving DecidableEq

/-- Histograms::init inserts a freshly built empty histogram under the
key (overwriting any histogram already stored there) -/
def Histograms.init {T : Type} [DecidableEq T] (h : Histograms T) (key : T) : Histograms T :=
  { h with data := ainsert h.data key ⟨[]⟩ }

/-- Histograms::remove -/
def Histograms.remove {T : Type} [DecidableEq T] (h : Histograms T) (key : T) : Histograms T :=
  { h with data := aremove h.data key }

/-- Histograms::increment_by forwards to the stored histogram when the
key is registered and is a no-op otherwise -/
def Histograms.increment_by {T : Type} [DecidableEq T] (h : Histograms T)
    (key : T) (duration count : Nat) : Histograms T :=
  { h with data := aadjust h.data key (fun hist => hist.increment_by duration count) }

/-- Histograms::increment with a count of one -/
def Histograms.increment {T : Type} [DecidableEq T] (h : Histograms T)
    (key : T) (duration : Nat) : Histograms T :=
  h.increment_by key duration 1

/-- Histograms::clear clears every stored histogram, keeping the keys -/
def Histograms.clear {T : Type} (h : Histograms T) : Histograms T :=
  { h with data := amap Histogram.clear h.data }

/-- Histograms::percentile forwards to the stored histogram, an error
when the key is absent -/
def Histograms.percentile {T : Type} [DecidableEq T] (h : Histograms T)
    (key : T) (p : ℚ) : Except String Nat :=
  match alookup h.data key with
  | some hist => hist.percentile p
  | none => Except.error "no data"

/-- one heatmap of the external heatmap collaborator, modelled as the
list of (start, value, count) increments it received -/
structure Heatmap where
  entries : List (Nat × Nat × Nat)
deriving DecidableEq

/-- Heatmap::increment_by -/
def Heatmap.increment_by (h : Heatmap) (start value count : Nat) : Heatmap :=
  ⟨h.entries ++ [(start, value, count)]⟩

/-- Heatmap::clear -/
def Heatmap.clear (_h : Heatmap) : Heatmap := ⟨[]⟩

/-- Heatmaps, from data/heatmaps.rs: a map of heatmaps keyed by metric -/
structure Heatmaps (T : Type) where
  data : List (T × Heatmap)
deriving DecidableEq

/-- Heatmaps::init inserts a freshly built empty heatmap under the key -/
def Heatmaps.init {T : Type} [DecidableEq T] (h : Heatmaps T) (key : T) : Heatmaps T :=
  { h with data := ainsert h.data key ⟨[]⟩ }

/-- Heatmaps::remove -/
def Heatmaps.remove {T : Type} [DecidableEq T] (h : Heatmaps T) (key : T) : Heatmaps T :=
  { h with data := aremove h.data key }

/-- Heatmaps::increment_by forwards to the stored heatmap when the key
is registered and is a no-op otherwise -/
def Heatmaps.increment_by {T : Type} [DecidableEq T] (h : Heatmaps T)
    (key : T) (start value count : Nat) : Heatmaps T :=
  { h with data := aadjust h.data key (fun hm => hm.increment_by start value count) }

/-- Heatmaps::increment with a count of one -/
def Heatmaps.increment {T : Type} [DecidableEq T] (h : Heatmaps T)
    (key : T) (start value : Nat) : Heatmaps T :=
  h.increment_by key start value 1

/-- Heatmaps::clear clears every stored heatmap, keeping the keys -/
def Heatmaps.clear {T : Type} (h : Heatmaps T) : Heatmaps T :=
  { h with data := amap Heatmap.clear h.data }

/-- second differences of a recorded phase series at lag tau, used by
the Allan variance estimator -/
def secondDiffs (xs : List ℚ) (tau : Nat) : List ℚ :=
  (List.range (xs.length - 2 * tau)).map (fun i =>
    xs.getD (i + 2 * tau) 0 - 2 * xs.getD (i + tau) 0 + xs.getD i 0)

/-- the Allan variance of a recorded phase series at lag tau -/
def allanVariance (xs : List ℚ) (tau : Nat) : ℚ :=
  ((secondDiffs xs tau).map (fun d => d * d)).sum /
    (2 * (tau : ℚ) ^ 2 * ((xs.length - 2 * tau : Nat) : ℚ))

/-- one accumulator of the external allan collaborator, modelled as the
series of recorded phase samples; the collaborator is out of scope, the
core only records samples and asks whether an estimate at a lag is
available -/
structure Allan where
  samples : List ℚ
deriving DecidableEq

/-- Allan::record appends one phase sample -/
def Allan.record (a : Allan) (v : ℚ) : Allan :=
  ⟨a.samples ++ [v]⟩

/-- the deviation estimate reported by the collaborator at lag tau: it
exists once enough samples have been recorded for the lag; the numeric
estimate is abstracted by the Allan variance of the series (the crate
reports its square root, which the core passes through unexamined) -/
def Allan.deviation (a : Allan) (tau : Nat) : Option ℚ :=
  if 0 < tau ∧ 2 * tau + 1 ≤ a.samples.length then some (allanVariance a.samples tau)
  else none

/-- Allans, from data/allans.rs: a map of Allan accumulators keyed by
metric, together with the configured maximum lag -/
structure Allans (T : Type) where
  max_tau : Nat
  data : List (T × Allan)
deriving DecidableEq

/-- Allans::init inserts a freshly built empty accumulator under the
key (overwriting any accumulator already stored there) -/
def Allans.init {T : Type} [DecidableEq T] (a : Allans T) (key : T) : Allans T :=
  { a with data := ainsert a.data key ⟨[]⟩ }

/-- Allans::remove -/
def Allans.remove {T : Type} [DecidableEq T] (a : Allans T) (key : T) : Allans T :=
  { a with data := aremove a.data key }

/-- Allans::record divides the incoming nanosecond value by one second
to convert it to seconds and records it, a no-op for an absent key -/
def Allans.record {T : Type} [DecidableEq T] (a : Allans T) (key : T) (value : ℚ) : Allans T :=
  { a with data := aadjust a.data key (fun al => al.record (value / (SECOND : ℚ))) }

/-- Allans::adev: an error when the key is absent, when the lag is not
tracked, or when the collaborator has no estimate yet -/
def Allans.adev {T : Type} [DecidableEq T] (a : Allans T) (key : T) (tau : Nat) :
    Except String ℚ :=
  match alookup a.data key with
  | none => Except.error "key not found"
  | some al =>
      if tau = 0 ∨ a.max_tau < tau then Except.error "no tau for allan"
      else
        match al.deviation tau with
        | some d => Except.ok d
        | none => Except.error "no adev for tau"

/-- a Percentile, from common.rs: a short label plus the floating point
percentile it stands for -/
structure Percentile where
  name : String
  point : ℚ
deriving DecidableEq

/-- the nine default percentiles reported at each window boundary, from
common.rs -/
def default_percentiles : List Percentile :=
  [⟨"min", 0⟩, ⟨"p50", 50⟩, ⟨"p75", 75⟩, ⟨"p90", 90⟩, ⟨"p95", 95⟩,
   ⟨"p99", 99⟩, ⟨"p999", 999 / 10⟩, ⟨"p9999", 9999 / 100⟩, ⟨"max", 100⟩]

/-- the default lags reported for Allan deviation, from common.rs: all
lags from 1 to 300 inclusive -/
def default_taus : List Nat :=
  (List.range 300).map (fun i => i + 1)

/-- Meters, from data/meters.rs: the flattened snapshot of derived
statistics, one map of u64 values and one map of f64 values, both keyed
by formatted strings -/
structure Meters where
  data : List (String × Nat)
  data_float : List (String × ℚ)
deriving DecidableEq

/-- Meters::set_count writes under the key label_count -/
def Meters.set_count (m : Meters) (channel : String) (value : Nat) : Meters :=
  { m with data := ainsert m.data (channel ++ "_count") value }

/-- Modelled from the spec: Meters::set_value is called by the Receiver
for Gauge interests but is absent from the provided sources; per the
spec the gauge reading goes into the integer map keyed by its label -/
def Meters.set_value (m : Meters) (channel : String) (value : Nat) : Meters :=
  { m with data := ainsert m.data (channel ++ "_value") value }

/-- Meters::set_latency_percentile writes under the key
label_percentile_nanoseconds -/
def Meters.set_latency_percentile (m : Meters) (channel : String)
    (percentile : Percentile) (value : Nat) : Meters :=
  { m with data := ainsert m.data (channel ++ "_" ++ percentile.name ++ "_nanoseconds") value }

/-- Meters::set_value_percentile writes under the key
label_percentile_units -/
def Meters.set_value_percentile (m : Meters) (channel : String)
    (percentile : Percentile) (value : Nat) : Meters :=
  { m with data := ainsert m.data (channel ++ "_" ++ percentile.name ++ "_units") value }

/-- Meters::set_adev writes under the float key label_tau_k_adev -/
def Meters.set_adev (m : Meters) (channel : String) (tau : Nat) (value : ℚ) : Meters :=
  { m with data_float := ainsert m.data_float (channel ++ "_tau_" ++ toString tau ++ "_adev") value }

/-- Meters::clear, from data/meters.rs lines 84 to 88: it clears the
integer map only; the float map is left untouched -/
def Meters.clear (m : Meters) : Meters :=
  { m with data := [] }

/-- an Interest, from common.rs: registers a metric for reporting -/
inductive Interest (T : Type) where
  | allanDeviation : T → Interest T
  | count : T → Interest T
  | gauge : T → Interest T
  | latencyPercentile : T → Interest T
  | valuePercentile : T → Interest T
  | latencyTrace : T → String → Interest T
  | latencyWaterfall : T → String → Interest T
  | valueTrace : T → String → Interest T
  | valueWaterfall : T → String → Interest T
deriving DecidableEq

/-- a ControlMessage, from common.rs; the one-shot reply channel of
SnapshotMeters is modelled by whether its receiving side is still
open -/
inductive ControlMessage (T : Type) where
  | addInterest : Interest T → ControlMessage T
  | removeInterest : Interest T → ControlMessage T
  | snapshotMeters : (replyOpen : Bool) → ControlMessage T
deriving DecidableEq

/-- the external clocksource collaborator: conversion from counter
ticks to nanoseconds at a learned rate; the live counter readings are
passed to the Receiver operations as explicit arguments -/
structure Clocksource where
  ns_per_tick : ℚ

/-- Clocksource::convert turns a tick count into nanoseconds -/
def Clocksource.convert (c : Clocksource) (ticks : Nat) : ℚ :=
  (ticks : ℚ) * c.ns_per_tick

/-- the saturating cast from f64 to u64 performed by the Rust
expressions of the form value as u64: negative values clamp to zero -/
def ratToU64 (q : ℚ) : Nat :=
  if q ≤ 0 then 0 else min (2 ^ 64 - 1) q.floor.toNat

/-- a Receiver, from receiver.rs: the single aggregator owning all
per-label state; channel endpoints, the poll handle and the buffer pool
are interaction points modelled at the call sites, and the relevant
configuration fields are inlined -/
structure Receiver (T : Type) where
  window_time : Nat
  window_duration : Nat
  end_time : Nat
  run_duration : Nat
  windows : Nat
  service_mode : Bool
  sample_rate : ℚ
  allans : Allans T
  counters : Counters T
  gauges : Gauges T
  latency_histograms : Histograms T
  value_histograms : Histograms T
  meters : Meters
  interests : List (Interest T)
  taus : List Nat
  percentiles : List Percentile
  latency_heatmaps : Heatmaps T
  value_heatmaps : Heatmaps T

/-- HashSet::insert on the interest set: a set already holding the
element is unchanged -/
def insertInterest {T : Type} [DecidableEq T] (l : List (Interest T)) (i : Interest T) :
    List (Interest T) :=
  if i ∈ l then l else i :: l

/-- Receiver::add_interest, from receiver.rs lines 152 to 179:
initialise the structure matching the interest kind (the init calls
insert fresh structures, overwriting), then insert the interest into
the interest set -/
def Receiver.add_interest {T : Type} [DecidableEq T] (r : Receiver T) (interest : Interest T) :
    Receiver T :=
  let r2 := match interest with
    | Interest.allanDeviation key => { r with allans := r.allans.init key }
    | Interest.count key => { r with counters := r.counters.init key }
    | Interest.gauge key => { r with gauges := r.gauges.init key }
    | Interest.latencyPercentile key => { r with latency_histograms := r.latency_histograms.init key }
    | Interest.valuePercentile key => { r with value_histograms := r.value_histograms.init key }
    | Interest.latencyTrace key _ => { r with latency_heatmaps := r.latency_heatmaps.init key }
    | Interest.latencyWaterfall key _ => { r with latency_heatmaps := r.latency_heatmaps.init key }
    | Interest.valueTrace key _ => { r with value_heatmaps := r.value_heatmaps.init key }
    | Interest.valueWaterfall key _ => { r with value_heatmaps := r.value_heatmaps.init key }
  { r2 with interests := insertInterest r2.interests interest }

/-- Receiver::remove_interest, from receiver.rs: tear down the
structure and drop the interest from the interest set -/
def Receiver.remove_interest {T : Type} [DecidableEq T] (r : Receiver T) (interest : Interest T) :
    Receiver T :=
  let r2 := match interest with
    | Interest.allanDeviation key => { r with allans := r.allans.remove key }
    | Interest.count key => { r with counters := r.counters.remove key }
    | Interest.gauge key => { r with gauges := r.gauges.remove key }
    | Interest.latencyPercentile key => { r with latency_histograms := r.latency_histograms.remove key }
    | Interest.valuePercentile key => { r with value_histograms := r.value_histograms.remove key }
    | Interest.latencyTrace key _ => { r with latency_heatmaps := r.latency_heatmaps.remove key }
    | Interest.latencyWaterfall key _ => { r with latency_heatmaps := r.latency_heatmaps.remove key }
    | Interest.valueTrace key _ => { r with value_heatmaps := r.value_heatmaps.remove key }
    | Interest.valueWaterfall key _ => { r with value_heatmaps := r.value_heatmaps.remove key }
  { r2 with interests := r2.interests.filter (fun j => j ≠ interest) }

/-- Receiver::clear_heatmaps -/
def Receiver.clear_heatmaps {T : Type} (r : Receiver T) : Receiver T :=
  { r with latency_heatmaps := r.latency_heatmaps.clear,
           value_heatmaps := r.value_heatmaps.clear }

/-- Receiver::clone_meters -/
def Receiver.clone_meters {T : Type} (r : Receiver T) : Meters :=
  r.meters

/-- the per-sample update applied while draining a data batch in
run_once, from receiver.rs lines 235 to 259: convert the tick stamps to
nanoseconds, take the difference, and feed every per-label structure -/
def Receiver.processSample {T : Type} [DecidableEq T] (r : Receiver T) (cs : Clocksource)
    (result : Sample T) : Receiver T :=
  let t0 := cs.convert result.start
  let t1 := cs.convert result.stop
  let dt := t1 - t0
  { r with
    allans := r.allans.record result.metric dt,
    gauges := r.gauges.set result.metric result.value,
    counters := r.counters.increment_by result.metric result.count,
    latency_histograms := r.latency_histograms.increment result.metric (ratToU64 dt),
    value_histograms := r.value_histograms.increment result.metric result.count,
    latency_heatmaps := r.latency_heatmaps.increment result.metric (ratToU64 t0) (ratToU64 dt),
    value_heatmaps := r.value_heatmaps.increment result.metric (ratToU64 t0) result.count }

/-- the handling of one control message in run_once, from receiver.rs
lines 266 to 279; the result is the updated receiver paired with the
meters clone delivered on the reply channel if any, and none when the
code would panic: the snapshot branch unwraps the reply send, which
fails when the requester dropped the reply channel -/
def Receiver.handleControl {T : Type} [DecidableEq T] (r : Receiver T)
    (msg : ControlMessage T) : Option (Receiver T × Option Meters) :=
  match msg with
  | ControlMessage.addInterest interest => some (r.add_interest interest, none)
  | ControlMessage.removeInterest interest => some (r.remove_interest interest, none)
  | ControlMessage.snapshotMeters replyOpen =>
      let meters := r.clone_meters
      if replyOpen then some (r, some meters) else none

/-- unwrap_or on an Except result -/
def exceptD {E A : Type} (x : Except E A) (d : A) : A :=
  match x with
  | Except.ok v => v
  | Except.error _ => d

/-- the meters update performed for one interest inside check_elapsed,
from receiver.rs lines 292 to 339; fmt models the Display instance of
the label type -/
def Receiver.applyInterest {T : Type} [DecidableEq T] (fmt : T → String) (r : Receiver T)
    (m : Meters) : Interest T → Meters
  | Interest.count key => m.set_count (fmt key) (r.counters.count key)
  | Interest.gauge key => m.set_value (fmt key) (r.gauges.value key)
  | Interest.latencyPercentile key =>
      r.percentiles.foldl
        (fun m p =>
          m.set_latency_percentile (fmt key) p
            (exceptD (r.latency_histograms.percentile key p.point) 0)) m
  | Interest.valuePercentile key =>
      r.percentiles.foldl
        (fun m p =>
          m.set_value_percentile (fmt key) p
            (ratToU64 ((exceptD (r.value_histograms.percentile key p.point) 0 : Nat) *
              r.sample_rate))) m
  | Interest.allanDeviation key =>
      r.taus.foldl
        (fun m tau =>
          match r.allans.adev key tau with
          | Except.ok adev => m.set_adev (fmt key) tau adev
          | Except.error _ => m) m
  | _ => m

/-- Receiver::check_elapsed, from receiver.rs lines 288 to 347: when
the clock reading has reached the window deadline, clear the meters,
write the derived value of every interest into them, clear both
histogram maps, and advance the window deadline; the clock reading tsc
is an explicit argument -/
def Receiver.check_elapsed {T : Type} [DecidableEq T] (fmt : T → String) (r : Receiver T)
    (tsc t1 : Nat) : Receiver T × Bool :=
  if t1 ≤ tsc then
    let m := r.interests.foldl (fun m i => r.applyInterest fmt m i) r.meters.clear
    ({ r with meters := m,
              latency_histograms := r.latency_histograms.clear,
              value_histograms := r.value_histograms.clear,
              window_time := r.window_time + r.window_duration }, true)
  else (r, false)

/-- the observable scheduling events of Receiver::run -/
inductive RunEvent where
  | runOnce
  | saveFiles
  | clearHeatmaps
deriving DecidableEq

/-- the inner loop of Receiver::run, from receiver.rs lines 354 to 360:
starting from the current value of the window counter, call run_once
and increment the counter until it reaches the configured number of
windows; returns the emitted events and the final counter value. The
counter is a local of run that the loop never resets, so the loop
always runs at least once. The recurrence lemma innerTrace_loop below
certifies that this closed form matches the loop. -/
def innerTrace (windows : Nat) (window : Nat) : List RunEvent × Nat :=
  let k := max 1 (windows - window)
  (List.replicate k RunEvent.runOnce, window + k)

/-- the event trace of Receiver::run, from receiver.rs lines 350 to
371, unrolled for a number of outer-loop iterations: each outer
iteration runs the inner loop, calls save_files, and, in service mode,
clears the heatmaps and starts over without resetting the window
counter -/
def runTrace (windows : Nat) (service_mode : Bool) : Nat → Nat → List RunEvent
  | _, 0 => []
  | window, fuel + 1 =>
      let inner := innerTrace windows window
      if service_mode then
        inner.1 ++ [RunEvent.saveFiles, RunEvent.clearHeatmaps] ++
          runTrace windows service_mode inner.2 fuel
      else inner.1 ++ [RunEvent.saveFiles]

/-- Controller::get_meters, from controller.rs lines 21 to 49: the
outcome of the non-blocking control send and the reply received on the
one-shot channel (none when the aggregator dropped the reply sender
without responding) are explicit arguments -/
def Controller.get_meters (send : TrySendOutcome) (reply : Option Meters) :
    Except IoError Meters :=
  match send with
  | TrySendOutcome.accepted =>
      match reply with
      | some result => Except.ok result
      | none => Except.error ⟨"Other", "failed to receive snapshot"⟩
  | TrySendOutcome.ioErr e => Except.error e
  | TrySendOutcome.full => Except.error ⟨"Other", "failed to send snapshot command"⟩
  | TrySendOutcome.disconnected => Except.error ⟨"Other", "failed to send snapshot command"⟩

/-- a receiver over string labels with no registered state, used as the
base of the concrete states below -/
def emptyReceiver : Receiver String :=
  { window_time := 0, window_duration := 0, end_time := 0, run_duration := 0,
    windows := 1, service_mode := false, sample_rate := 1,
    allans := ⟨300, []⟩, counters := ⟨[]⟩, gauges := ⟨[]⟩,
    latency_histograms := ⟨[]⟩, value_histograms := ⟨[]⟩,
    meters := ⟨[], []⟩, interests := [], taus := default_taus,
    percentiles := default_percentiles,
    latency_heatmaps := ⟨[]⟩, value_heatmaps := ⟨[]⟩ }

/-- a meters snapshot holding one integer and one float entry from a
previous window -/
def mC4 : Meters := ⟨[("a_count", 5)], [("a_tau_1_adev", 3)]⟩

/-- a receiver in which the counter for label a has accumulated a count
of 5 and the matching interest is registered -/
def rC5 : Receiver String :=
  { emptyReceiver with counters := ⟨[("a", 5)]⟩, interests := [Interest.count "a"] }

/-- a receiver with a latency-percentile, a value-percentile and an
Allan-deviation interest for label a, empty latency and value
histograms and an Allan accumulator with no recorded samples -/
def rC8 : Receiver String :=
  { emptyReceiver with
    interests := [Interest.latencyPercentile "a", Interest.valuePercentile "a",
                  Interest.allanDeviation "a"],
    latency_histograms := ⟨[("a", ⟨[]⟩)]⟩,
    value_histograms := ⟨[("a", ⟨[]⟩)]⟩,
    allans := ⟨300, [("a", ⟨[]⟩)]⟩ }

/-- a receiver with data recorded in every per-label structure, used to
exercise the window-boundary procedure -/
def rC2 : Receiver String :=
  { emptyReceiver with
    counters := ⟨[("a", 4)]⟩, gauges := ⟨[("a", 7)]⟩,
    latency_histograms := ⟨[("a", ⟨[(9, 1)]⟩)]⟩,
    value_histograms := ⟨[("a", ⟨[(3, 1)]⟩)]⟩,
    latency_heatmaps := ⟨[("a", ⟨[(0, 9, 1)]⟩)]⟩,
    value_heatmaps := ⟨[("a", ⟨[(0, 3, 1)]⟩)]⟩,
    allans := ⟨300, [("a", ⟨[1]⟩)]⟩,
    interests := [Interest.count "a"] }

/-- a receiver with an initialised Allan accumulator for label a -/
def rC9 : Receiver String :=
  { emptyReceiver with allans := ⟨300, [("a", ⟨[]⟩)]⟩ }

/-- a sample used by the concrete sender scenarios -/
def sampleA : Sample String := ⟨0, 5, 1, "a"⟩

/-- another sample used by the concrete sender scenarios -/
def sampleB : Sample String := ⟨5, 9, 1, "a"⟩

/-- a sender whose buffer will reach its batch size of two on the next
send -/
def senderC1 : Sender String := ⟨2, some [sampleA]⟩

/-- a sender whose retained buffer already holds as many samples as its
batch size of one -/
def senderC10 : Sender String := ⟨1, some [sampleA]⟩

/-- looking up the key just inserted yields the inserted value -/
theorem alookup_ainsert_self {K V : Type} [DecidableEq K] (l : List (K × V)) (k : K) (v : V) :
    alookup (ainsert l k v) k = some v := by
  induction l with
  | nil => simp [ainsert, alookup]
  | cons p rest ih =>
      by_cases hp : p.1 = k
      · simp [ainsert, alookup, hp]
      · simp [ainsert, alookup, hp, ih]

/-- inserting under a different key does not change a lookup -/
theorem alookup_ainsert_ne {K V : Type} [DecidableEq K] (l : List (K × V)) (k k2 : K) (v : V)
    (hne : k2 ≠ k) : alookup (ainsert l k2 v) k = alookup l k := by
  induction l with
  | nil => simp [ainsert, alookup, hne]
  | cons p rest ih =>
      by_cases hp : p.1 = k2
      · simp [ainsert, alookup, hp, hne]
      · simp [ainsert, alookup, hp, ih]

/-- adjusting a present key rewrites its value through the function -/
theorem alookup_aadjust_self {K V : Type} [DecidableEq K] (l : List (K × V)) (k : K)
    (f : V → V) (v : V) (hv : alookup l k = some v) :
    alookup (aadjust l k f) k = some (f v) := by
  induction l with
  | nil => simp [alookup] at hv
  | cons p rest ih =>
      by_cases hp : p.1 = k
      · simp [alookup, hp] at hv
        simp [aadjust, alookup, hp, hv]
      · simp [alookup, hp] at hv
        simp [aadjust, alookup, hp, ih hv]

/-- a lookup after mapping every value equals mapping the lookup -/
theorem alookup_amap {K V : Type} [DecidableEq K] (f : V → V) (l : List (K × V)) (k : K) :
    alookup (amap f l) k = (alookup l k).map f := by
  induction l with
  | nil => simp [amap, alookup]
  | cons p rest ih =>
      rw [show amap f (p :: rest) = (p.1, f p.2) :: amap f rest from rfl]
      by_cases hp : p.1 = k
      · simp [alookup, hp]
      · simp [alookup, hp, ih]

/-- the inserted interest is a member of the updated interest set -/
theorem mem_insertInterest {T : Type} [DecidableEq T] (l : List (Interest T)) (i : Interest T) :
    i ∈ insertInterest l i := by
  by_cases h : i ∈ l
  · simp [insertInterest, h]
  · simp [insertInterest, h]

/-- unwrapping an error yields the default -/
theorem exceptD_error {E A : Type} (e : E) (d : A) :
    exceptD (Except.error e) d = d := rfl

/-- a registered but empty histogram reports an error for every
percentile query -/
theorem percentile_of_empty {T : Type} [DecidableEq T] (h : Histograms T) (key : T)
    (hkey : alookup h.data key = some ⟨[]⟩) (q : ℚ) :
    Histograms.percentile h key q = Except.error "no data" := by
  simp [Histograms.percentile, hkey, Histogram.percentile, Histogram.total]

/-- an Allan accumulator with no recorded samples never yields an
estimate, whatever the lag -/
theorem adev_of_empty {T : Type} [DecidableEq T] (a : Allans T) (key : T)
    (hkey : alookup a.data key = some ⟨[]⟩) (tau : Nat) :
    ∃ e, Allans.adev a key tau = Except.error e := by
  by_cases htau : tau = 0 ∨ a.max_tau < tau
  · exact ⟨"no tau for allan", by simp [Allans.adev, hkey, htau]⟩
  · refine ⟨"no adev for tau", ?_⟩
    have hdev : Allan.deviation ⟨[]⟩ tau = none := by
      simp [Allan.deviation]
    simp [Allans.adev, hkey, htau, hdev]

/-- the Allan-deviation reporting fold writes nothing when the
accumulator has no estimate at any lag -/
theorem ad_fold_id {T : Type} [DecidableEq T] (a : Allans T) (key : T)
    (hkey : alookup a.data key = some ⟨[]⟩) (fk : String) (taus : List Nat) (m : Meters) :
    taus.foldl
      (fun m tau =>
        match Allans.adev a key tau with
        | Except.ok adev => m.set_adev fk tau adev
        | Except.error _ => m) m = m := by
  induction taus generalizing m with
  | nil => rfl
  | cons tau rest ih =>
      obtain ⟨e, he⟩ := adev_of_empty a key hkey tau
      simp [he, ih]

/-- the latency-percentile reporting fold never touches the float map -/
theorem lp_fold_data_float (fk : String) (ps : List Percentile) (m : Meters) :
    (ps.foldl (fun m p => m.set_latency_percentile fk p 0) m).data_float =
      m.data_float := by
  induction ps generalizing m with
  | nil => rfl
  | cons p rest ih => simpa [Meters.set_latency_percentile] using ih _

/-- a zero already stored in the integer map survives the
latency-percentile reporting fold when every written value is zero -/
theorem lp_fold_keeps_zero (fk : String) (ps : List Percentile) (m : Meters) (k : String)
    (hk : alookup m.data k = some 0) :
    alookup (ps.foldl (fun m p => m.set_latency_percentile fk p 0) m).data k = some 0 := by
  induction ps generalizing m with
  | nil => exact hk
  | cons p rest ih =>
      refine ih _ ?_
      by_cases heq : fk ++ "_" ++ p.name ++ "_nanoseconds" = k
      · simpa [Meters.set_latency_percentile, heq] using alookup_ainsert_self m.data k 0
      · simpa [Meters.set_latency_percentile] using
          (alookup_ainsert_ne m.data k (fk ++ "_" ++ p.name ++ "_nanoseconds") 0 heq).trans hk

/-- the saturating cast of zero is zero -/
theorem ratToU64_zero : ratToU64 0 = 0 := by
  simp [ratToU64]

/-- the value-percentile reporting fold never touches the float map -/
theorem vp_fold_data_float (fk : String) (ps : List Percentile) (m : Meters) :
    (ps.foldl (fun m p => m.set_value_percentile fk p 0) m).data_float =
      m.data_float := by
  induction ps generalizing m with
  | nil => rfl
  | cons p rest ih => simpa [Meters.set_value_percentile] using ih _

/-- a zero already stored in the integer map survives the
value-percentile reporting fold when every written value is zero -/
theorem vp_fold_keeps_zero (fk : String) (ps : List Percentile) (m : Meters) (k : String)
    (hk : alookup m.data k = some 0) :
    alookup (ps.foldl (fun m p => m.set_value_percentile fk p 0) m).data k = some 0 := by
  induction ps generalizing m with
  | nil => exact hk
  | cons p rest ih =>
      refine ih _ ?_
      by_cases heq : fk ++ "_" ++ p.name ++ "_units" = k
      · simpa [Meters.set_value_percentile, heq] using alookup_ainsert_self m.data k 0
      · simpa [Meters.set_value_percentile] using
          (alookup_ainsert_ne m.data k (fk ++ "_" ++ p.name ++ "_units") 0 heq).trans hk

/-- after the value-percentile reporting fold writes a zero for every
percentile, looking any of them up yields zero -/
theorem vp_fold_writes_zero (fk : String) (ps : List Percentile) (m : Meters) :
    ∀ p ∈ ps,
      alookup (ps.foldl (fun m p => m.set_value_percentile fk p 0) m).data
        (fk ++ "_" ++ p.name ++ "_units") = some 0 := by
  induction ps generalizing m with
  | nil => intro p hp; simp at hp
  | cons q rest ih =>
      intro p hp
      rcases List.mem_cons.mp hp with hpq | hpr
      · subst hpq
        refine vp_fold_keeps_zero fk rest _ _ ?_
        simpa [Meters.set_value_percentile] using
          alookup_ainsert_self m.data (fk ++ "_" ++ p.name ++ "_units") 0
      · exact ih _ p hpr

/-- after the latency-percentile reporting fold writes a zero for every
percentile, looking any of them up yields zero -/
theorem lp_fold_writes_zero (fk : String) (ps : List Percentile) (m : Meters) :
    ∀ p ∈ ps,
      alookup (ps.foldl (fun m p => m.set_latency_percentile fk p 0) m).data
        (fk ++ "_" ++ p.name ++ "_nanoseconds") = some 0 := by
  induction ps generalizing m with
  | nil => intro p hp; simp at hp
  | cons q rest ih =>
      intro p hp
      rcases List.mem_cons.mp hp with hpq | hpr
      · subst hpq
        refine lp_fold_keeps_zero fk rest _ _ ?_
        simpa [Meters.set_latency_percentile] using
          alookup_ainsert_self m.data (fk ++ "_" ++ p.name ++ "_nanoseconds") 0
      · exact ih _ p hpr

/-- the closed form of the inner loop of Receiver::run satisfies the
loop recurrence: run once and stop when the incremented counter has
reached the window count, otherwise continue with the incremented
counter -/
theorem innerTrace_loop (windows window : Nat) :
    innerTrace windows window =
      if windows ≤ window + 1 then ([RunEvent.runOnce], window + 1)
      else (RunEvent.runOnce :: (innerTrace windows (window + 1)).1,
            (innerTrace windows (window + 1)).2) := by
  by_cases h : windows ≤ window + 1
  · have hk : max 1 (windows - window) = 1 := by omega
    simp [innerTrace, h, hk]
  · have hk : max 1 (windows - window) = windows - window := by omega
    have hk2 : max 1 (windows - (window + 1)) = windows - (window + 1) := by omega
    have hrep : windows - window = (windows - (window + 1)) + 1 := by omega
    simp [innerTrace, h, hk, hk2, hrep, List.replicate_succ]
    omega

/-- Claim C1: when the local buffer reaches the batch size and the
non-blocking enqueue onto the data channel fails because the channel is
full or disconnected, Sender::send retains the full buffer unchanged,
every unsent sample including the one just appended, and returns
success without enqueuing anything -/
theorem c1_send_backpressure_retains_buffer {T : Type} (s : Sender T) (sample : Sample T)
    (buf : List (Sample T)) (enq : TrySendOutcome) (pool : Option (List (Sample T)))
    (hbuf : s.buffer = some buf)
    (hfull : s.batch_size ≤ buf.length + 1)
    (henq : enq = TrySendOutcome.full ∨ enq = TrySendOutcome.disconnected) :
    Sender.send s sample enq pool =
      some ({ s with buffer := some (buf ++ [sample]) }, Except.ok (), none) := by
  rcases henq with h | h <;> subst h <;> simp [Sender.send, hbuf, hfull]

/-- Witness for C1: a sender with batch size two whose buffer holds one
sample retains both samples and reports success when the channel is
full -/
theorem c1_witness :
    Sender.send senderC1 sampleB TrySendOutcome.full none =
      some ({ senderC1 with buffer := some ([sampleA] ++ [sampleB]) }, Except.ok (), none) :=
  c1_send_backpressure_retains_buffer senderC1 sampleB [sampleA] TrySendOutcome.full none
    rfl (by decide) (Or.inl rfl)

/-- Claim C10: while the data channel stays full or disconnected, every
further Sender::send call still appends its sample to the retained
buffer before attempting the flush, so the buffer grows by exactly one
sample per call past the batch size with none dropped; once an enqueue
succeeds the entire oversized buffer is sent as a single batch -/
theorem c10_oversized_buffer_grows_then_flushes {T : Type} (s : Sender T) (sample : Sample T)
    (buf : List (Sample T)) (pool : Option (List (Sample T)))
    (hbuf : s.buffer = some buf)
    (hlen : s.batch_size ≤ buf.length) :
    (Sender.send s sample TrySendOutcome.full pool =
      some ({ s with buffer := some (buf ++ [sample]) }, Except.ok (), none)) ∧
    (Sender.send s sample TrySendOutcome.disconnected pool =
      some ({ s with buffer := some (buf ++ [sample]) }, Except.ok (), none)) ∧
    (Sender.send s sample TrySendOutcome.accepted pool =
      some ({ s with buffer := some (pool.getD []) }, Except.ok (), some (buf ++ [sample]))) := by
  have hfull : s.batch_size ≤ buf.length + 1 := by omega
  refine ⟨by simp [Sender.send, hbuf, hfull], by simp [Sender.send, hbuf, hfull], ?_⟩
  cases pool <;> simp [Sender.send, hbuf, hfull]

/-- Witness for C10: a sender with batch size one whose retained buffer
already holds one sample grows it on failure and flushes both samples
as one batch on success -/
theorem c10_witness :
    (Sender.send senderC10 sampleB TrySendOutcome.full (some []) =
      some ({ senderC10 with buffer := some ([sampleA] ++ [sampleB]) }, Except.ok (), none)) ∧
    (Sender.send senderC10 sampleB TrySendOutcome.disconnected (some []) =
      some ({ senderC10 with buffer := some ([sampleA] ++ [sampleB]) }, Except.ok (), none)) ∧
    (Sender.send senderC10 sampleB TrySendOutcome.accepted (some []) =
      some ({ senderC10 with buffer := some ((some ([] : List (Sample String))).getD []) },
        Except.ok (), some ([sampleA] ++ [sampleB]))) :=
  c10_oversized_buffer_grows_then_flushes senderC10 sampleB [sampleA] (some []) rfl (by decide)

/-- Claim C2: a window boundary in check_elapsed clears both histogram
maps, leaving every registered histogram empty, while counters, gauges,
both heatmap maps and the Allan accumulators are unchanged by the
procedure itself -/
theorem c2_window_boundary_frame {T : Type} [DecidableEq T]
    (fmt : T → String) (r : Receiver T) (tsc t1 : Nat) (helapsed : t1 ≤ tsc) :
    ((Receiver.check_elapsed fmt r tsc t1).1.counters = r.counters) ∧
    ((Receiver.check_elapsed fmt r tsc t1).1.gauges = r.gauges) ∧
    ((Receiver.check_elapsed fmt r tsc t1).1.latency_heatmaps = r.latency_heatmaps) ∧
    ((Receiver.check_elapsed fmt r tsc t1).1.value_heatmaps = r.value_heatmaps) ∧
    ((Receiver.check_elapsed fmt r tsc t1).1.allans = r.allans) ∧
    (∀ k hist,
      alookup (Receiver.check_elapsed fmt r tsc t1).1.latency_histograms.data k = some hist →
        hist.entries = []) ∧
    (∀ k hist,
      alookup (Receiver.check_elapsed fmt r tsc t1).1.value_histograms.data k = some hist →
        hist.entries = []) := by
  have hlat : (Receiver.check_elapsed fmt r tsc t1).1.latency_histograms =
      r.latency_histograms.clear := by simp [Receiver.check_elapsed, helapsed]
  have hval : (Receiver.check_elapsed fmt r tsc t1).1.value_histograms =
      r.value_histograms.clear := by simp [Receiver.check_elapsed, helapsed]
  refine ⟨by simp [Receiver.check_elapsed, helapsed], by simp [Receiver.check_elapsed, helapsed],
    by simp [Receiver.check_elapsed, helapsed], by simp [Receiver.check_elapsed, helapsed],
    by simp [Receiver.check_elapsed, helapsed], ?_, ?_⟩
  · intro k hist hk
    rw [hlat] at hk
    simp only [Histograms.clear, alookup_amap, Option.map_eq_some'] at hk
    obtain ⟨h0, -, hh⟩ := hk
    rw [← hh]
    rfl
  · intro k hist hk
    rw [hval] at hk
    simp only [Histograms.clear, alookup_amap, Option.map_eq_some'] at hk
    obtain ⟨h0, -, hh⟩ := hk
    rw [← hh]
    rfl

/-- Witness for C2 at a concrete receiver holding data in every
structure -/
theorem c2_witness :
    ((Receiver.check_elapsed id rC2 1 0).1.counters = rC2.counters) ∧
    ((Receiver.check_elapsed id rC2 1 0).1.gauges = rC2.gauges) ∧
    ((Receiver.check_elapsed id rC2 1 0).1.latency_heatmaps = rC2.latency_heatmaps) ∧
    ((Receiver.check_elapsed id rC2 1 0).1.value_heatmaps = rC2.value_heatmaps) ∧
    ((Receiver.check_elapsed id rC2 1 0).1.allans = rC2.allans) ∧
    (∀ k hist,
      alookup (Receiver.check_elapsed id rC2 1 0).1.latency_histograms.data k = some hist →
        hist.entries = []) ∧
    (∀ k hist,
      alookup (Receiver.check_elapsed id rC2 1 0).1.value_histograms.data k = some hist →
        hist.entries = []) :=
  c2_window_boundary_frame id rC2 1 0 (by decide)

/-- Claim C9: for every drained sample whose label has an initialised
Allan accumulator, the value recorded into the accumulator is the
latency in nanoseconds divided by ten to the ninth, that is the latency
in seconds -/
theorem c9_allan_input_is_seconds {T : Type} [DecidableEq T] (r : Receiver T)
    (cs : Clocksource) (s : Sample T) (al : Allan)
    (hreg : alookup r.allans.data s.channel = some al) :
    alookup (r.processSample cs s).allans.data s.channel =
      some ⟨al.samples ++ [(cs.convert s.stop - cs.convert s.start) / ((10 : ℚ) ^ 9)]⟩ := by
  have hsec : ((SECOND : Nat) : ℚ) = (10 : ℚ) ^ 9 := by norm_num [SECOND]
  have hadj := alookup_aadjust_self r.allans.data s.channel
      (fun al => al.record ((cs.convert s.stop - cs.convert s.start) / ((SECOND : Nat) : ℚ)))
      al hreg
  simpa [Receiver.processSample, Allans.record, Allan.record, Sample.metric, hsec] using hadj

/-- Witness for C9: recording one sample into an initialised empty
accumulator stores its latency divided by ten to the ninth -/
theorem c9_witness :
    alookup ((rC9.processSample ⟨1⟩ sampleA).allans.data) sampleA.channel =
      some ⟨([] : List ℚ) ++
        [((⟨1⟩ : Clocksource).convert sampleA.stop - (⟨1⟩ : Clocksource).convert sampleA.start) /
          ((10 : ℚ) ^ 9)]⟩ :=
  c9_allan_input_is_seconds rC9 ⟨1⟩ sampleA ⟨[]⟩ (by decide)

/-- Counterexample for C4: the claim states that after Meters::clear
neither map holds entries from previous windows, but on a snapshot
holding one integer and one float entry the float entry survives -/
theorem c4_counterexample :
    ¬ ((Meters.clear mC4).data = [] ∧ (Meters.clear mC4).data_float = []) := by
  decide

/-- Claim C4 amended: Meters::clear empties the integer map and leaves
the float map exactly as it was, so float entries from previous windows
survive the reset -/
theorem c4_clear_resets_only_integer_map (m : Meters) :
    (Meters.clear m).data = [] ∧ (Meters.clear m).data_float = m.data_float :=
  ⟨rfl, rfl⟩

/-- Counterexample for C5: the claim states that a duplicate
AddInterest leaves the existing per-label structure unchanged, but
re-adding a counter interest for a label whose counter has accumulated
a count of five replaces that counter -/
theorem c5_counterexample :
    (rC5.add_interest (Interest.count "a")).counters ≠ rC5.counters := by
  decide

/-- Claim C5 amended: a duplicate AddInterest is not ignored at the
structure level: the init call inserts a fresh structure, resetting the
counter to zero and the histogram to empty, while the distinct Interest
value is still kept in the interest set -/
theorem c5_duplicate_add_interest_resets {T : Type} [DecidableEq T] (r : Receiver T) (key : T) :
    ((r.add_interest (Interest.count key)).counters.count key = 0) ∧
    (Interest.count key ∈ (r.add_interest (Interest.count key)).interests) ∧
    (alookup (r.add_interest (Interest.latencyPercentile key)).latency_histograms.data key =
      some ⟨[]⟩) ∧
    (Interest.latencyPercentile key ∈
      (r.add_interest (Interest.latencyPercentile key)).interests) := by
  refine ⟨?_, ?_, ?_, ?_⟩
  · show Counters.count (r.counters.init key) key = 0
    simp [Counters.count, Counters.init, alookup_ainsert_self]
  · exact mem_insertInterest r.interests (Interest.count key)
  · show alookup (r.latency_histograms.init key).data key = some ⟨[]⟩
    simp [Histograms.init, alookup_ainsert_self]
  · exact mem_insertInterest r.interests (Interest.latencyPercentile key)

/-- Counterexample for C6: the claim states that a SnapshotMeters
message whose reply channel was dropped is swallowed without panic, but
the handler unwraps the reply send and panics, modelled by the none
result -/
theorem c6_counterexample :
    Receiver.handleControl emptyReceiver (ControlMessage.snapshotMeters false) = none :=
  rfl

/-- Claim C6 amended: handling SnapshotMeters with a dropped reply
channel panics, because the send onto the reply channel is unwrapped;
with an open reply channel the Receiver answers with a clone of its
meters and continues -/
theorem c6_snapshot_reply_unwrap {T : Type} [DecidableEq T] (r : Receiver T) :
    Receiver.handleControl r (ControlMessage.snapshotMeters false) = none ∧
    Receiver.handleControl r (ControlMessage.snapshotMeters true) = some (r, some r.meters) :=
  ⟨rfl, rfl⟩

/-- Counterexample for C7: the claim states that the three failure
modes of Controller::get_meters are pairwise distinguishable, but a
full channel and a disconnected channel produce identical errors -/
theorem c7_counterexample :
    Controller.get_meters TrySendOutcome.full none =
      Controller.get_meters TrySendOutcome.disconnected none ∧
    Controller.get_meters TrySendOutcome.full none =
      Except.error ⟨"Other", "failed to send snapshot command"⟩ :=
  ⟨rfl, rfl⟩

/-- Claim C7 amended: Controller::get_meters surfaces two
distinguishable failures, not three: channel full and channel
disconnected collapse to one identical error, while a reply channel
closed before a snapshot arrived yields a different error -/
theorem c7_two_distinct_failures (reply : Option Meters) :
    Controller.get_meters TrySendOutcome.full reply =
      Except.error ⟨"Other", "failed to send snapshot command"⟩ ∧
    Controller.get_meters TrySendOutcome.disconnected reply =
      Except.error ⟨"Other", "failed to send snapshot command"⟩ ∧
    Controller.get_meters TrySendOutcome.accepted none =
      Except.error ⟨"Other", "failed to receive snapshot"⟩ ∧
    (⟨"Other", "failed to send snapshot command"⟩ : IoError) ≠
      ⟨"Other", "failed to receive snapshot"⟩ :=
  ⟨rfl, rfl, rfl, by decide⟩

/-- Counterexample for C8: the claim states that an Allan-deviation
interest with no estimate gets 0.0 substituted in the float map, but at
a window boundary over an accumulator with no samples no float entry is
written at all -/
theorem c8_counterexample :
    alookup ((Receiver.check_elapsed id rC8 1 0).1).meters.data_float "a_tau_1_adev" ≠
      some 0 := by
  decide

/-- Claim C8 amended: with no data available, zero is substituted for
integer-valued results: each of the nine latency percentiles over an
empty latency histogram is written as 0 under its nanoseconds key, and
each of the nine value percentiles over an empty value histogram is
written as 0 under its units key; for float-valued results nothing is
substituted: an Allan deviation with no estimate at a lag writes no
entry, so starting from an empty float map the float map stays empty -/
theorem c8_zero_for_integers_nothing_for_floats {T : Type} [DecidableEq T]
    (fmt : T → String) (r : Receiver T) (key : T) (tsc t1 : Nat)
    (helapsed : t1 ≤ tsc)
    (hint : r.interests = [Interest.latencyPercentile key, Interest.valuePercentile key,
      Interest.allanDeviation key])
    (hhist : alookup r.latency_histograms.data key = some ⟨[]⟩)
    (hvhist : alookup r.value_histograms.data key = some ⟨[]⟩)
    (hallan : alookup r.allans.data key = some ⟨[]⟩)
    (hfloat : r.meters.data_float = []) :
    (∀ p ∈ r.percentiles,
      alookup (Receiver.check_elapsed fmt r tsc t1).1.meters.data
        (fmt key ++ "_" ++ p.name ++ "_nanoseconds") = some 0) ∧
    (∀ p ∈ r.percentiles,
      alookup (Receiver.check_elapsed fmt r tsc t1).1.meters.data
        (fmt key ++ "_" ++ p.name ++ "_units") = some 0) ∧
    (Receiver.check_elapsed fmt r tsc t1).1.meters.data_float = [] := by
  have hmeters : (Receiver.check_elapsed fmt r tsc t1).1.meters =
      r.interests.foldl (fun m i => r.applyInterest fmt m i) r.meters.clear := by
    simp [Receiver.check_elapsed, helapsed]
  rw [hint] at hmeters
  have hm1 : Receiver.applyInterest fmt r r.meters.clear (Interest.latencyPercentile key) =
      r.percentiles.foldl (fun m p => m.set_latency_percentile (fmt key) p 0) r.meters.clear := by
    simp [Receiver.applyInterest, percentile_of_empty r.latency_histograms key hhist,
      exceptD_error]
  have hm2 : ∀ m : Meters, Receiver.applyInterest fmt r m (Interest.valuePercentile key) =
      r.percentiles.foldl (fun m p => m.set_value_percentile (fmt key) p 0) m := by
    intro m
    simp [Receiver.applyInterest, percentile_of_empty r.value_histograms key hvhist,
      exceptD_error, ratToU64_zero]
  have had : ∀ m : Meters, Receiver.applyInterest fmt r m (Interest.allanDeviation key) = m := by
    intro m
    simpa [Receiver.applyInterest] using ad_fold_id r.allans key hallan (fmt key) r.taus m
  rw [List.foldl_cons, List.foldl_cons, List.foldl_cons, List.foldl_nil, hm1, hm2, had]
    at hmeters
  refine ⟨?_, ?_, ?_⟩
  · intro p hp
    rw [hmeters]
    exact vp_fold_keeps_zero (fmt key) r.percentiles _ _
      (lp_fold_writes_zero (fmt key) r.percentiles r.meters.clear p hp)
  · intro p hp
    rw [hmeters]
    exact vp_fold_writes_zero (fmt key) r.percentiles _ p hp
  · rw [hmeters, vp_fold_data_float, lp_fold_data_float]
    exact hfloat

/-- Witness for the amended C8 at a concrete receiver with empty
latency and value histograms and an empty Allan accumulator -/
theorem c8_witness :
    (∀ p ∈ rC8.percentiles,
      alookup (Receiver.check_elapsed id rC8 1 0).1.meters.data
        (id "a" ++ "_" ++ p.name ++ "_nanoseconds") = some 0) ∧
    (∀ p ∈ rC8.percentiles,
      alookup (Receiver.check_elapsed id rC8 1 0).1.meters.data
        (id "a" ++ "_" ++ p.name ++ "_units") = some 0) ∧
    (Receiver.check_elapsed id rC8 1 0).1.meters.data_float = [] :=
  c8_zero_for_integers_nothing_for_floats id rC8 "a" 1 0 (by decide) rfl (by decide)
    (by decide) (by decide) rfl

/-- Claim C3: the claim states Receiver::run saves files after every
windows elapsed windows, in service mode repeating so that save_files
fires again only after a further windows windows; but the window
counter of run is never reset, so with three windows in service mode
the second and third cycles each run exactly one window before saving:
the trace of the first three outer iterations is three windows and a
save, then one window and a save, then one window and a save -/
theorem c3_service_mode_single_window_cycles :
    runTrace 3 true 0 3 =
      [RunEvent.runOnce, RunEvent.runOnce, RunEvent.runOnce, RunEvent.saveFiles,
       RunEvent.clearHeatmaps, RunEvent.runOnce, RunEvent.saveFiles, RunEvent.clearHeatmaps,
       RunEvent.runOnce, RunEvent.saveFiles, RunEvent.clearHeatmaps] := by
  decide

end Tic
